import Mathlib

/-!
Verification of the Unity-Python UDP bridge for the Unitree G1
(`g1_bridge_server.py`, class `UnityPythonBridge`).

The bridge is embedded shallowly:
* `CommandEnvelope` models the decoded JSON command dictionary, with the
  fields the server actually reads (`command`, `data`), each optional
  because `dict.get` is used with a default in the Python source.
* `Response` models the response dictionaries passed to `send_to_unity`;
  fields that only some responses carry are `Option`-valued.
* `process_command` returns, in emission order, the list of response
  dictionaries the Python method would pass to `send_to_unity`.  The
  wall-clock timestamp produced by `datetime.now().isoformat()` is passed
  in as the parameter `now`; the `time.sleep` calls have no effect on the
  emitted data and are not modelled.
* `listenStep` models one iteration of `UnityPythonBridge.listen` acting
  on a received datagram: the source-host check, the first-message
  learning of `unity_address`, JSON decoding (a malformed payload raises
  `json.JSONDecodeError`, which the loop catches and logs), and the call
  to `process_command`.
-/

namespace G1Bridge

/-- A decoded JSON command dictionary from Unity.  Only the keys the
server reads are modelled; each is optional because the source uses
`command_dict.get(key, default)`. -/
structure CommandEnvelope where
  command : Option String
  data : Option String
deriving Repr, DecidableEq

/-- A response dictionary built by `process_command` and handed to
`send_to_unity`.  `status`, `command` and `message` are present in every
response the server builds; the remaining keys appear only in some
branches and are `Option`-valued. -/
structure Response where
  status : String
  command : String
  message : String
  echo_data : Option String := none
  timestamp : Option String := none
  controller_ip : Option String := none
  robot_ip : Option String := none
  robot_status : Option String := none
  connection : Option String := none
deriving Repr, DecidableEq

/-- `UnityPythonBridge.process_command`: dispatch on the `command` field
(defaulting to `"unknown"` as in `command_dict.get("command", "unknown")`)
and return the response dictionaries in the order they are sent.  `now`
stands for `datetime.now().isoformat()`. -/
def process_command (now : String) (command_dict : CommandEnvelope) :
    List Response :=
  let cmd_type := command_dict.command.getD "unknown"
  if cmd_type = "ping" then
    [{ status := "success"
       command := "ping"
       message := "pong from robot controller"
       timestamp := some now
       controller_ip := some "192.168.123.164"
       robot_ip := some "192.168.123.161" }]
  else if cmd_type = "test_echo" then
    [{ status := "success"
       command := "test_echo"
       echo_data := some (command_dict.data.getD "")
       message := "Echoed from robot controller: " ++ command_dict.data.getD "" }]
  else if cmd_type = "shake_hand" then
    [{ status := "acknowledged"
       command := "shake_hand"
       message := "Handshake command received, preparing robot" },
     { status := "in_progress"
       command := "shake_hand"
       message := "Robot hand extended, waiting for player" },
     { status := "completed"
       command := "shake_hand"
       message := "Handshake completed, robot returning to idle" }]
  else if cmd_type = "get_status" then
    [{ status := "success"
       command := "get_status"
       robot_status := some "idle"
       connection := some "active"
       controller_ip := some "192.168.123.164"
       robot_ip := some "192.168.123.161"
       message := "Robot controller is ready" }]
  else
    [{ status := "error"
       command := cmd_type
       message := "Unknown command: " ++ cmd_type }]

/-- A network endpoint `(host, port)`, as returned by `recvfrom`. -/
structure Endpoint where
  host : String
  port : Nat
deriving Repr, DecidableEq

/-- The payload of a received datagram after the attempted
`json.loads(data.decode("utf-8"))`: either undecodable (raising
`json.JSONDecodeError`, caught by the loop) or a decoded dictionary. -/
inductive Payload where
  | malformed
  | wellFormed (command_dict : CommandEnvelope)
deriving Repr, DecidableEq

/-- An inbound datagram: its source endpoint and its payload. -/
structure Datagram where
  source : Endpoint
  payload : Payload
deriving Repr, DecidableEq

/-- The mutable bridge state read and written by `listen`: the configured
peer host `pc_ip` and the learned reply endpoint `unity_address`
(`None` until the first accepted datagram). -/
structure BridgeState where
  pc_ip : String
  unity_address : Option Endpoint
deriving Repr, DecidableEq

/-- One iteration of `UnityPythonBridge.listen` on a received datagram:
check the source host against `pc_ip`; on a match, set `unity_address`
if it is still unset, then decode the payload — a malformed payload
raises `json.JSONDecodeError`, which the loop catches (no response) —
and hand a decoded dictionary to `process_command`.  Returns the updated
state and the responses emitted for this datagram. -/
def listenStep (now : String) (s : BridgeState) (d : Datagram) :
    BridgeState × List Response :=
  if d.source.host = s.pc_ip then
    let s' : BridgeState :=
      match s.unity_address with
      | none => { s with unity_address := some d.source }
      | some _ => s
    match d.payload with
    | .malformed => (s', [])
    | .wellFormed command_dict => (s', process_command now command_dict)
  else
    (s, [])

/-- C1: a `shake_hand` command envelope makes `process_command` emit
exactly three responses, in the strict order `acknowledged`,
`in_progress`, `completed`, each carrying command `shake_hand`. -/
theorem shake_hand_three_phases (now : String) (d : Option String) :
    (process_command now ⟨some "shake_hand", d⟩).map
        (fun r => (r.status, r.command)) =
      [("acknowledged", "shake_hand"), ("in_progress", "shake_hand"),
       ("completed", "shake_hand")] := by
  rfl

/-- C2: a `test_echo` command envelope makes `process_command` emit
exactly one response whose `echo_data` equals the envelope `data` field,
defaulting to the empty string when `data` is absent. -/
theorem test_echo_roundtrip (now : String) (d : Option String) :
    (process_command now ⟨some "test_echo", d⟩).map Response.echo_data =
      [some (d.getD "")] := by
  rfl

/-- C3: a `ping` command envelope makes `process_command` emit exactly
one response, with status `success` and command `ping`. -/
theorem ping_single_success (now : String) (d : Option String) :
    (process_command now ⟨some "ping", d⟩).map
        (fun r => (r.status, r.command)) =
      [("success", "ping")] := by
  rfl

/-- C4: a command envelope whose command string is none of `ping`,
`test_echo`, `get_status`, `shake_hand` makes `process_command` emit
exactly one response, with status `error` and a `message` containing the
original command string. -/
theorem unknown_command_single_error (now : String) (c : String)
    (d : Option String) (h1 : c ≠ "ping") (h2 : c ≠ "test_echo")
    (h3 : c ≠ "shake_hand") (h4 : c ≠ "get_status") :
    ∃ r : Response, process_command now ⟨some c, d⟩ = [r] ∧
      r.status = "error" ∧ ∃ pre suf, r.message = pre ++ c ++ suf := by
  unfold process_command
  simp only [Option.getD_some]
  rw [if_neg h1, if_neg h2, if_neg h3, if_neg h4]
  exact ⟨_, rfl, rfl, "Unknown command: ", "", by simp⟩

/-- C4 witness: instantiation of `unknown_command_single_error` at the
concrete unrecognized command `"dance"`. -/
theorem unknown_command_single_error_witness :
    ∃ r : Response, process_command "t0" ⟨some "dance", none⟩ = [r] ∧
      r.status = "error" ∧ ∃ pre suf, r.message = pre ++ "dance" ++ suf :=
  unknown_command_single_error "t0" "dance" none (by decide) (by decide)
    (by decide) (by decide)

/-- C9: every response emitted by `process_command` has a `status` among
`success`, `error`, `acknowledged`, `in_progress`, `completed`, and a
`command` equal to the (defaulted) originating command identifier. -/
theorem response_envelope_invariant (now : String) (env : CommandEnvelope)
    (r : Response) (hr : r ∈ process_command now env) :
    r.status ∈ ["success", "error", "acknowledged", "in_progress",
      "completed"] ∧
    r.command = env.command.getD "unknown" := by
  unfold process_command at hr
  dsimp only at hr
  split_ifs at hr with h1 h2 h3 h4 <;>
    simp only [List.mem_cons, List.mem_singleton, List.not_mem_nil,
      or_false] at hr
  · subst hr; exact ⟨by simp, h1.symm⟩
  · subst hr; exact ⟨by simp, h2.symm⟩
  · rcases hr with hr | hr | hr <;> subst hr <;> exact ⟨by simp, h3.symm⟩
  · subst hr; exact ⟨by simp, h4.symm⟩
  · subst hr; exact ⟨by simp, rfl⟩

/-- C9 witness: instantiation of `response_envelope_invariant` at the
concrete `ping` envelope and its emitted response. -/
theorem response_envelope_invariant_witness :
    ({ status := "success", command := "ping",
       message := "pong from robot controller", timestamp := some "t0",
       controller_ip := some "192.168.123.164",
       robot_ip := some "192.168.123.161" } : Response).status ∈
        ["success", "error", "acknowledged", "in_progress", "completed"] ∧
    ({ status := "success", command := "ping",
       message := "pong from robot controller", timestamp := some "t0",
       controller_ip := some "192.168.123.164",
       robot_ip := some "192.168.123.161" } : Response).command =
      (CommandEnvelope.mk (some "ping") none).command.getD "unknown" :=
  response_envelope_invariant "t0" ⟨some "ping", none⟩ _ (by decide)

/-- Helper: one iteration of `listen` never changes the configured peer
host. -/
theorem listenStep_pc_ip (now : String) (s : BridgeState) (d : Datagram) :
    (listenStep now s d).1.pc_ip = s.pc_ip := by
  unfold listenStep
  split_ifs <;> cases s.unity_address <;> cases d.payload <;> rfl

/-- Helper: a decodable datagram from the configured peer host is handed
to `process_command`, whose responses are exactly what the iteration
emits. -/
theorem listenStep_emits (now : String) (s : BridgeState) (src : Endpoint)
    (e : CommandEnvelope) (hhost : src.host = s.pc_ip) :
    (listenStep now s ⟨src, .wellFormed e⟩).2 = process_command now e := by
  unfold listenStep
  dsimp only
  rw [if_pos hhost]

/-- C5 counterexample: a well-formed JSON payload lacking the `command`
field is not dropped without a response — at a concrete state and
datagram, the iteration emits an error response (`command` defaults to
`"unknown"`), so the claim that no response envelope is emitted is
false. -/
theorem missing_command_counterexample :
    (listenStep "t0" ⟨"192.168.123.162", none⟩
        ⟨⟨"192.168.123.162", 5005⟩, .wellFormed ⟨none, none⟩⟩).2 =
      [{ status := "error", command := "unknown",
         message := "Unknown command: unknown" }] := by
  rfl

/-- C5 amended: a well-formed JSON payload lacking the `command` field,
arriving from the configured peer host, is decoded with `command`
defaulting to `"unknown"` and exactly one error response with message
`Unknown command: unknown` is emitted to the peer. -/
theorem missing_command_defaults_unknown (now : String) (s : BridgeState)
    (src : Endpoint) (d : Option String) (hhost : src.host = s.pc_ip) :
    (listenStep now s ⟨src, .wellFormed ⟨none, d⟩⟩).2 =
      [{ status := "error", command := "unknown",
         message := "Unknown command: unknown" }] := by
  rw [listenStep_emits now s src ⟨none, d⟩ hhost]
  rfl

/-- C5 witness: instantiation of `missing_command_defaults_unknown` at a
concrete state and datagram. -/
theorem missing_command_defaults_unknown_witness :
    (listenStep "t0" ⟨"192.168.123.162", none⟩
        ⟨⟨"192.168.123.162", 6000⟩, .wellFormed ⟨none, some "x"⟩⟩).2 =
      [{ status := "error", command := "unknown",
         message := "Unknown command: unknown" }] :=
  missing_command_defaults_unknown "t0" ⟨"192.168.123.162", none⟩
    ⟨"192.168.123.162", 6000⟩ (some "x") rfl

/-- C6 counterexample: the learned reply endpoint is not overwritten on
every valid receipt — at a concrete state whose endpoint was already
learned at port 1111, a valid datagram from the peer host at port 2222
leaves the endpoint at port 1111, so after processing it the reply
endpoint differs from that datagram source. -/
theorem endpoint_overwrite_counterexample :
    (listenStep "t0" ⟨"192.168.123.162", some ⟨"192.168.123.162", 1111⟩⟩
        ⟨⟨"192.168.123.162", 2222⟩, .wellFormed ⟨some "ping", none⟩⟩).1.unity_address ≠
      some ⟨"192.168.123.162", 2222⟩ := by
  decide

/-- C6 amended: on an accepted datagram from the configured peer host,
the learned reply endpoint is set to the datagram source only when it
was still unset; once learned it is never overwritten (first sender
port wins for the session). -/
theorem endpoint_first_message_wins (now : String) (s : BridgeState)
    (d : Datagram) (hhost : d.source.host = s.pc_ip) :
    (listenStep now s d).1.unity_address =
      some (s.unity_address.getD d.source) := by
  obtain ⟨pc, ua⟩ := s
  obtain ⟨src, pl⟩ := d
  unfold listenStep
  dsimp only at hhost ⊢
  rw [if_pos hhost]
  cases ua <;> cases pl <;> rfl

/-- C6 witness: instantiation of `endpoint_first_message_wins` at a
concrete unset state, learning the source endpoint. -/
theorem endpoint_first_message_wins_witness :
    (listenStep "t0" ⟨"192.168.123.162", none⟩
        ⟨⟨"192.168.123.162", 5005⟩, .wellFormed ⟨some "ping", none⟩⟩).1.unity_address =
      some ((none : Option Endpoint).getD ⟨"192.168.123.162", 5005⟩) :=
  endpoint_first_message_wins "t0" ⟨"192.168.123.162", none⟩
    ⟨⟨"192.168.123.162", 5005⟩, .wellFormed ⟨some "ping", none⟩⟩ rfl

/-- C7: a datagram whose source host differs from the configured peer
host emits no response and leaves the whole state — in particular the
learned reply endpoint — unchanged. -/
theorem unauthorized_host_no_effect (now : String) (s : BridgeState)
    (d : Datagram) (hhost : d.source.host ≠ s.pc_ip) :
    listenStep now s d = (s, []) := by
  unfold listenStep
  rw [if_neg hhost]

/-- C7 witness: instantiation of `unauthorized_host_no_effect` at a
concrete datagram from an unexpected host. -/
theorem unauthorized_host_no_effect_witness :
    listenStep "t0" ⟨"192.168.123.162", none⟩
        ⟨⟨"192.168.123.99", 5005⟩, .wellFormed ⟨some "ping", none⟩⟩ =
      (⟨"192.168.123.162", none⟩, []) :=
  unauthorized_host_no_effect "t0" ⟨"192.168.123.162", none⟩
    ⟨⟨"192.168.123.99", 5005⟩, .wellFormed ⟨some "ping", none⟩⟩ (by decide)

/-- C8: a datagram whose payload is not valid JSON emits no response —
the decode error is caught and the iteration completes normally — and a
subsequent valid `ping` datagram from the peer host is still processed,
emitting its responses as usual. -/
theorem malformed_json_no_response (now now2 : String) (s : BridgeState)
    (src src2 : Endpoint) (d2 : Option String)
    (hhost : src2.host = s.pc_ip) :
    (listenStep now s ⟨src, .malformed⟩).2 = [] ∧
    (listenStep now2 (listenStep now s ⟨src, .malformed⟩).1
        ⟨src2, .wellFormed ⟨some "ping", d2⟩⟩).2 =
      process_command now2 ⟨some "ping", d2⟩ := by
  constructor
  · unfold listenStep
    split_ifs <;> cases s.unity_address <;> rfl
  · exact listenStep_emits now2 _ src2 ⟨some "ping", d2⟩
      (by rw [listenStep_pc_ip]; exact hhost)

/-- C8 witness: instantiation of `malformed_json_no_response` at a
concrete malformed datagram followed by a concrete `ping`. -/
theorem malformed_json_no_response_witness :
    (listenStep "t0" ⟨"192.168.123.162", none⟩
        ⟨⟨"192.168.123.162", 5005⟩, .malformed⟩).2 = [] ∧
    (listenStep "t1" (listenStep "t0" ⟨"192.168.123.162", none⟩
          ⟨⟨"192.168.123.162", 5005⟩, .malformed⟩).1
        ⟨⟨"192.168.123.162", 5005⟩, .wellFormed ⟨some "ping", none⟩⟩).2 =
      process_command "t1" ⟨some "ping", none⟩ :=
  malformed_json_no_response "t0" "t1" ⟨"192.168.123.162", none⟩
    ⟨"192.168.123.162", 5005⟩ ⟨"192.168.123.162", 5005⟩ none rfl

/-- C10: endpoint learning happens before JSON decoding — when the reply
endpoint is unset, even a malformed datagram from the configured peer
host sets the learned reply endpoint to that datagram source. -/
theorem malformed_still_learns_endpoint (now : String) (s : BridgeState)
    (src : Endpoint) (hnone : s.unity_address = none)
    (hhost : src.host = s.pc_ip) :
    (listenStep now s ⟨src, .malformed⟩).1.unity_address = some src := by
  unfold listenStep
  dsimp only
  rw [if_pos hhost, hnone]

/-- C10 witness: instantiation of `malformed_still_learns_endpoint` at a
concrete unset state and malformed datagram. -/
theorem malformed_still_learns_endpoint_witness :
    (listenStep "t0" ⟨"192.168.123.162", none⟩
        ⟨⟨"192.168.123.162", 7000⟩, .malformed⟩).1.unity_address =
      some ⟨"192.168.123.162", 7000⟩ :=
  malformed_still_learns_endpoint "t0" ⟨"192.168.123.162", none⟩
    ⟨"192.168.123.162", 7000⟩ rfl rfl

end G1Bridge
